import Mathlib

/-!
# Verification of runipy's CLI driver and notebook execution engine

This development shallowly embeds `runipy/main.py` (the command-line driver)
and — where the repository's engine module is only described by the design
document — a model of the notebook execution engine, and proves properties
about them.

The CLI driver `main` is embedded as a pure function from the parsed
arguments and an environment (stdin interactivity, the result of the
notebook run, and whether the output/HTML writes raise) to a trace record
of the observable behaviour: exit status or propagated exception, whether
stdin/file input was read, the arguments handed to the notebook runner,
which files were written, and whether the kernel was shut down.
-/

namespace Runipy

/-- Truthiness of an optional string, as Python evaluates
`args.input_file` / `args.output_file` / `args.profile_dir` in a boolean
context: `None` and the empty string are falsy. -/
def truthy : Option String → Bool
  | none => false
  | some s => !(s == "")

/-- Position just after the last `/` in a character list (`rfind + 1`
in `posixpath.dirname`), or `none` when there is no slash. -/
def rfindSlashSucc : List Char → Option Nat
  | [] => none
  | c :: cs =>
    match rfindSlashSucc cs with
    | some i => some (i + 1)
    | none => if c = '/' then some 1 else none

/-- Drop trailing `/` characters (`str.rstrip('/')`). -/
def dropTrailingSlashes (l : List Char) : List Char :=
  (l.reverse.dropWhile (fun c => c = '/')).reverse

/-- `os.path.dirname` for POSIX paths, as in `posixpath.dirname`:
take the prefix up to and including the last `/`; if that prefix is
non-empty and not all slashes, strip its trailing slashes. -/
def posixDirname (p : String) : String :=
  match rfindSlashSucc p.data with
  | none => ""
  | some i =>
    let head := p.data.take i
    if head ≠ [] ∧ ¬ (head.all fun c => c = '/') then ⟨dropTrailingSlashes head⟩
    else ⟨head⟩

/-- An `argparse` option declared with `nargs='?', default=False`
(`--html`, `--template`): absent, present without a value (Python `None`),
or present with a value. -/
inductive OptArg where
  | notGiven
  | givenEmpty
  | givenVal (s : String)
deriving DecidableEq

/-- The parsed command-line arguments of `runipy`, one field per
`parser.add_argument` call in `main` (the `--version` action exits inside
`argparse` and is not part of `main`'s own control flow). -/
structure Args where
  input_file : Option String := none
  output_file : Option String := none
  quiet : Bool := false
  overwrite : Bool := false
  html : OptArg := .notGiven
  template : OptArg := .notGiven
  pylab : Bool := false
  matplotlib : Bool := false
  skip_exceptions : Bool := false
  use_stdout : Bool := false
  use_stdin : Bool := false
  no_chdir : Bool := false
  profile_dir : Option String := none
  output_nbformat_version : Int := 3
deriving DecidableEq

/-- The outcome of `run_notebook`: it either returns normally or raises
`NotebookError` (the only exception `main` catches). -/
inductive RunResult where
  | ok
  | nbError
deriving DecidableEq

/-- The environment `main` executes in: whether stdin is a terminal, what
`run_notebook` does, and whether the output-notebook write or the HTML
export raises an exception (e.g. an I/O error). -/
structure Env where
  stdin_isatty : Bool := false
  run_result : RunResult := .ok
  write_output_fails : Bool := false
  html_export_fails : Bool := false
deriving DecidableEq

/-- How the `main` process terminates: `sys.exit(status)`, or an
unhandled exception propagating out of `main`. -/
inductive Outcome where
  | exited (status : Nat)
  | raised
deriving DecidableEq

/-- Observable trace of one execution of `main`. -/
structure MainTrace where
  outcome : Outcome
  /-- The `--overwrite`/`output_file` conflict message printed to stderr. -/
  printedUsageError : Bool := false
  /-- Whether any notebook input (file or stdin) was read. -/
  inputRead : Bool := false
  /-- Whether the notebook payload was read from stdin rather than a file. -/
  readFromStdin : Bool := false
  /-- Whether `nb_runner.run_notebook` was invoked. -/
  runInvoked : Bool := false
  /-- The `working_dir` argument passed to `NotebookRunner`. -/
  runnerWorkingDir : Option String := none
  /-- The `profile_dir` argument passed to `NotebookRunner`
  (home-directory expansion by `os.path.expanduser` is abstracted). -/
  runnerProfileDir : Option String := none
  /-- Whether `nb_runner.shutdown_kernel()` was called. -/
  shutdownCalled : Bool := false
  /-- The file path the executed notebook was written to, if any. -/
  wroteNotebookTo : Option String := none
  /-- Whether the notebook was printed to stdout. -/
  wroteToStdout : Bool := false
  /-- `args.output_file` after the `--overwrite` substitution. -/
  effectiveOutputFile : Option String := none
  /-- The file path the HTML snapshot was written to, if any. -/
  wroteHtmlTo : Option String := none
deriving DecidableEq

/-- The HTML output filename computed in `main` when `--html` was given:
the provided value, or, when `--html` had no value, a name derived from
`args.input_file` (`input[:-6] + '.html'` for a `.ipynb` input, else
`input + '.html'`). `none` means the derivation raises
(`args.input_file` is Python `None`, so `.endswith` raises
`AttributeError`). -/
def htmlName (a : Args) : Option String :=
  match a.html with
  | .givenVal s => some s
  | .givenEmpty =>
    match a.input_file with
    | none => none
    | some f =>
      some (if f.endsWith ".ipynb" then f.dropRight 6 ++ ".html" else f ++ ".html")
  | .notGiven => none

/-- The guard of the `--overwrite` sanity check (line 114–115):
`args.overwrite and args.output_file is not None`. -/
def conflictCond (a : Args) : Bool :=
  a.overwrite && !(a.output_file == none)

/-- Line 131: `args.input_file == '-' or args.stdin` — stdin is forced. -/
def forceStdin (a : Args) : Bool :=
  a.input_file == some "-" || a.use_stdin

/-- Line 134: stdin not forced, no (truthy) input file, and stdin is a
terminal — `main` prints the usage text and exits. -/
def helpCond (a : Args) (e : Env) : Bool :=
  !forceStdin a && !truthy a.input_file && e.stdin_isatty

/-- Whether the notebook payload is read from stdin: stdin forced, or no
(truthy) input file given (lines 131–139). -/
def readStdinCond (a : Args) : Bool :=
  forceStdin a || !truthy a.input_file

/-- The `exit_status` variable of `main`: `0`, set to `1` when
`run_notebook` raises `NotebookError` (lines 165–169). -/
def exitStatusOf : RunResult → Nat
  | .ok => 0
  | .nbError => 1

/-- The tail of `main` after `run_notebook` returns (or its
`NotebookError` is caught): the output-notebook write (lines 171–179),
the stdout write (lines 181–188), the HTML export (lines 190–216) and
the kernel shutdown plus final `exit` (lines 218–222).  `base` is the
trace accumulated so far; `base.effectiveOutputFile` is `args.output_file`
after the `--overwrite` substitution.  A failing write or HTML export
propagates its exception, so the function returns right there with
`outcome := .raised` and `shutdownCalled` still false. -/
def postRun (a : Args) (e : Env) (base : MainTrace) : MainTrace :=
  let output_file := base.effectiveOutputFile
  let doWrite := truthy output_file && !(output_file == some "-")
  if doWrite && e.write_output_fails then
    { base with outcome := .raised }
  else
    let base :=
      if doWrite then { base with wroteNotebookTo := output_file } else base
    let base :=
      if a.use_stdout || output_file == some "-" then
        { base with wroteToStdout := true }
      else base
    if a.html == .notGiven then
      { base with shutdownCalled := true }
    else
      match htmlName a with
      | none => { base with outcome := .raised }
      | some hname =>
        if e.html_export_fails then { base with outcome := .raised }
        else
          { base with wroteHtmlTo := some hname, shutdownCalled := true }

/-- Shallow embedding of `runipy.main.main` (argument parsing already
done): the straight-line control flow from the `--overwrite` check to the
final `exit(exit_status)`, with the input-source selection, the
`working_dir` computation, the run, and the output/shutdown tail
(`postRun`).  Reading and parsing the input notebook is assumed to
succeed; `run_notebook` either succeeds or raises `NotebookError`
(per `Env.run_result`); the output write and HTML export raise exactly
when the corresponding `Env` flag is set. -/
def main (a : Args) (e : Env) : MainTrace :=
  if conflictCond a then
    { outcome := .exited 1, printedUsageError := true,
      effectiveOutputFile := a.output_file }
  else
    let output_file := if a.overwrite then a.input_file else a.output_file
    if helpCond a e then
      { outcome := .exited 0, effectiveOutputFile := output_file }
    else
      let readStdin := readStdinCond a
      let wd0 : Option String :=
        if readStdin then none
        else some (posixDirname (a.input_file.getD ""))
      let wd := if a.no_chdir then none else wd0
      let pd := if truthy a.profile_dir then a.profile_dir else none
      postRun a e
        { outcome := .exited (exitStatusOf e.run_result), inputRead := true,
          readFromStdin := readStdin, runInvoked := true,
          runnerWorkingDir := wd, runnerProfileDir := pd,
          effectiveOutputFile := output_file }

/-!
## The notebook execution engine

The repository's engine module (`NotebookRunner` with `run_notebook` and
`shutdown_kernel`) is not among the available source files; only its
caller `main.py` is.  The engine below is therefore modelled from the
design document's component contracts (Document Model, Output
Normalizer, Cell Runner, Kernel Session) and checked against the
document's own testable properties.
-/

/-- The name of a kernel stream. -/
inductive StreamName where
  | stdout
  | stderr
deriving DecidableEq

/-- Modelled from the spec: the tagged Output variant of the document
model — `Stream`, `DisplayData`, `ExecuteResult` (with the assigned
execution count) and `Error` (exception name, value, traceback lines).
Mime-type payload mappings are association lists. -/
inductive Output where
  | stream (name : StreamName) (text : String)
  | displayData (data : List (String × String))
  | executeResult (data : List (String × String)) (execution_count : Nat)
  | error (ename : String) (evalue : String) (traceback : List String)
deriving DecidableEq

/-- Modelled from the spec: a notebook cell — Code cells carry source
text, a nullable execution counter and an ordered output list; Markdown
and Raw cells carry only source text. -/
inductive Cell where
  | code (source : String) (execution_count : Option Nat) (outputs : List Output)
  | markdown (source : String)
  | raw (source : String)
deriving DecidableEq

/-- Whether a cell is a Code cell. -/
def isCode : Cell → Bool
  | .code .. => true
  | _ => false

/-- The execution counter of a cell (`none` for non-code cells). -/
def cellCount : Cell → Option Nat
  | .code _ c _ => c
  | _ => none

/-- The output list of a cell (`[]` for non-code cells). -/
def cellOutputs : Cell → List Output
  | .code _ _ outs => outs
  | _ => []

/-- Modelled from the spec: a notebook is an ordered sequence of cells. -/
structure Notebook where
  cells : List Cell
deriving DecidableEq

/-- Modelled from the spec: a protocol event on the Execution Channel's
broadcast stream — status changes, stream writes, display data, error
reports, and unrecognized event types (dropped by the normalizer). -/
inductive Event where
  | status (busy : Bool)
  | streamWrite (name : StreamName) (text : String)
  | display (data : List (String × String))
  | errorReport (ename : String) (evalue : String) (traceback : List String)
  | unknown
deriving DecidableEq

/-- Modelled from the spec: the terminal reply closing one request —
status `ok` (optionally carrying a result payload), `error` (with
exception name/value/traceback) or `aborted`. -/
inductive Terminal where
  | ok (result : Option (List (String × String)))
  | error (ename : String) (evalue : String) (traceback : List String)
  | aborted
deriving DecidableEq

/-- Modelled from the spec: what one submitted request yields — a finite
event stream followed by a terminal reply, or the events seen before a
per-event timeout, or the events seen before the channel closed (kernel
died). -/
inductive CellOutcome where
  | completed (events : List Event) (terminal : Terminal)
  | timedOut (events : List Event)
  | channelClosed (events : List Event)
deriving DecidableEq

/-- Modelled from the spec: the Output Normalizer — a pure mapping from
protocol events to document outputs: stream events to `Stream`,
rich-display events to `DisplayData`, error reports to `Error`; status
changes and unrecognized events normalize to `none` and are dropped.
(`ExecuteResult` is produced from the terminal success reply, which
carries the just-assigned execution count, not from a stream event.) -/
def normalize : Event → Option Output
  | .streamWrite n t => some (.stream n t)
  | .display d => some (.displayData d)
  | .errorReport en ev tb => some (.error en ev tb)
  | .status _ => none
  | .unknown => none

/-- Modelled from the spec: the Cell Runner's per-cell algorithm.  Given
the failure policy, the cell's source and prior execution counter, the
outcome of the submitted request and the current `ExecutionState`
counter, it returns the updated cell, the new counter, and whether the
run must abort with `NotebookError`:

* the prior outputs are cleared up front, so they are not an argument —
  the drained, normalized events replace them;
* on a terminal `ok` the counter is incremented and assigned, and a
  result payload (if any) is appended as `ExecuteResult`;
* on a terminal `error` the `Error` output is appended unless already
  present from the event stream, the counter is incremented and
  assigned, and the run aborts exactly when `skip_exceptions` is false;
* a terminal `aborted` is treated like `error` for policy purposes;
* a timeout or channel closure aborts the run regardless of policy; no
  terminal reply arrived, so no new execution count is assigned. -/
def run_cell (skip_exceptions : Bool) (source : String) (prior_count : Option Nat)
    (outcome : CellOutcome) (counter : Nat) : Cell × Nat × Bool :=
  match outcome with
  | .completed evs term =>
    let drained := evs.filterMap normalize
    match term with
    | .ok payload =>
      let cnt := counter + 1
      let outs :=
        match payload with
        | some d => drained ++ [Output.executeResult d cnt]
        | none => drained
      (.code source (some cnt) outs, cnt, false)
    | .error en ev tb =>
      let cnt := counter + 1
      let errOut := Output.error en ev tb
      let outs := if errOut ∈ drained then drained else drained ++ [errOut]
      (.code source (some cnt) outs, cnt, !skip_exceptions)
    | .aborted =>
      let cnt := counter + 1
      (.code source (some cnt) drained, cnt, !skip_exceptions)
  | .timedOut evs => (.code source prior_count (evs.filterMap normalize), counter, true)
  | .channelClosed evs => (.code source prior_count (evs.filterMap normalize), counter, true)

/-- Modelled from the spec: the Cell Runner's walk over the cell list in
document order.  `oracle n` is the outcome of the `n`-th request
submitted on the Execution Channel; `idx` is the current cell index,
`counter` the `ExecutionState` counter and `subs` the number of requests
submitted so far.  Returns the updated cells, the final counter, the
final submission count, and `some i` when the run aborted with
`NotebookError` at cell index `i` (remaining cells are returned
unchanged and unexecuted).  Markdown/Raw cells are skipped: nothing is
submitted and the cell is returned untouched. -/
def run_cells (oracle : Nat → CellOutcome) (skip : Bool) :
    List Cell → Nat → Nat → Nat → List Cell × Nat × Nat × Option Nat
  | [], _idx, counter, subs => ([], counter, subs, none)
  | .code src cnt _outs :: rest, idx, counter, subs =>
    match run_cell skip src cnt (oracle subs) counter with
    | (cell', counter', abort) =>
      if abort then (cell' :: rest, counter', subs + 1, some idx)
      else
        match run_cells oracle skip rest (idx + 1) counter' (subs + 1) with
        | (rest', counterF, subsF, res) => (cell' :: rest', counterF, subsF, res)
  | .markdown s :: rest, idx, counter, subs =>
    match run_cells oracle skip rest (idx + 1) counter subs with
    | (rest', counterF, subsF, res) => (.markdown s :: rest', counterF, subsF, res)
  | .raw s :: rest, idx, counter, subs =>
    match run_cells oracle skip rest (idx + 1) counter subs with
    | (rest', counterF, subsF, res) => (.raw s :: rest', counterF, subsF, res)

/-- Modelled from the spec: `run_notebook` — runs every code cell of the
notebook in document order starting from a fresh per-run execution
counter.  Returns the mutated notebook, the number of kernel requests
submitted, and `some i` when the run raised `NotebookError` at cell
index `i` (`none` for a successful run). -/
def run_notebook (oracle : Nat → CellOutcome) (skip_exceptions : Bool)
    (nb : Notebook) : Notebook × Nat × Option Nat :=
  match run_cells oracle skip_exceptions nb.cells 0 0 0 with
  | (cells', _counter, subs, res) => (⟨cells'⟩, subs, res)

/-- Modelled from the spec: the Kernel Session's process state — never
started, running, or terminated. -/
inductive KernelState where
  | notStarted
  | running
  | dead
deriving DecidableEq

/-- Modelled from the spec: a Kernel Session owns one kernel process
handle, reduced here to its lifecycle state. -/
structure KernelSession where
  state : KernelState
deriving DecidableEq

/-- Modelled from the spec: `shutdown_kernel` — terminates the kernel
process of a running session (graceful request, then forced termination
is condensed into one transition to `dead`); on a session that is
already shut down or never successfully started it does nothing, and it
is total (never raises). -/
def shutdown_kernel (s : KernelSession) : KernelSession :=
  match s.state with
  | .running => ⟨.dead⟩
  | st => ⟨st⟩

/-!
## Helper lemmas
-/

theorem postRun_effectiveOutputFile (a : Args) (e : Env) (base : MainTrace) :
    (postRun a e base).effectiveOutputFile = base.effectiveOutputFile := by
  unfold postRun
  rcases hN : htmlName a with _ | hname <;>
  cases hW : truthy base.effectiveOutputFile && !(base.effectiveOutputFile == some "-") <;>
  cases hF : e.write_output_fails <;>
  cases hS : a.use_stdout || base.effectiveOutputFile == some "-" <;>
  cases hH : a.html == OptArg.notGiven <;>
  cases hE : e.html_export_fails <;>
  simp [hN, hW, hF, hS, hH, hE]

theorem postRun_runInvoked (a : Args) (e : Env) (base : MainTrace) :
    (postRun a e base).runInvoked = base.runInvoked := by
  unfold postRun
  rcases hN : htmlName a with _ | hname <;>
  cases hW : truthy base.effectiveOutputFile && !(base.effectiveOutputFile == some "-") <;>
  cases hF : e.write_output_fails <;>
  cases hS : a.use_stdout || base.effectiveOutputFile == some "-" <;>
  cases hH : a.html == OptArg.notGiven <;>
  cases hE : e.html_export_fails <;>
  simp [hN, hW, hF, hS, hH, hE]

theorem postRun_readFromStdin (a : Args) (e : Env) (base : MainTrace) :
    (postRun a e base).readFromStdin = base.readFromStdin := by
  unfold postRun
  rcases hN : htmlName a with _ | hname <;>
  cases hW : truthy base.effectiveOutputFile && !(base.effectiveOutputFile == some "-") <;>
  cases hF : e.write_output_fails <;>
  cases hS : a.use_stdout || base.effectiveOutputFile == some "-" <;>
  cases hH : a.html == OptArg.notGiven <;>
  cases hE : e.html_export_fails <;>
  simp [hN, hW, hF, hS, hH, hE]

theorem postRun_runnerWorkingDir (a : Args) (e : Env) (base : MainTrace) :
    (postRun a e base).runnerWorkingDir = base.runnerWorkingDir := by
  unfold postRun
  rcases hN : htmlName a with _ | hname <;>
  cases hW : truthy base.effectiveOutputFile && !(base.effectiveOutputFile == some "-") <;>
  cases hF : e.write_output_fails <;>
  cases hS : a.use_stdout || base.effectiveOutputFile == some "-" <;>
  cases hH : a.html == OptArg.notGiven <;>
  cases hE : e.html_export_fails <;>
  simp [hN, hW, hF, hS, hH, hE]

theorem postRun_inputRead (a : Args) (e : Env) (base : MainTrace) :
    (postRun a e base).inputRead = base.inputRead := by
  unfold postRun
  rcases hN : htmlName a with _ | hname <;>
  cases hW : truthy base.effectiveOutputFile && !(base.effectiveOutputFile == some "-") <;>
  cases hF : e.write_output_fails <;>
  cases hS : a.use_stdout || base.effectiveOutputFile == some "-" <;>
  cases hH : a.html == OptArg.notGiven <;>
  cases hE : e.html_export_fails <;>
  simp [hN, hW, hF, hS, hH, hE]

/-- When neither the output write nor the HTML export raises (and the
HTML filename derivation cannot raise), `postRun` reaches the final
shutdown call. -/
theorem postRun_shutdownCalled (a : Args) (e : Env) (base : MainTrace)
    (hw : e.write_output_fails = false) (hh : e.html_export_fails = false)
    (hn : htmlName a = none → a.html = OptArg.notGiven) :
    (postRun a e base).shutdownCalled = true := by
  unfold postRun
  rcases hN : htmlName a with _ | hname
  · have hH : (a.html == OptArg.notGiven) = true := by simp [hn hN]
    cases hW : truthy base.effectiveOutputFile && !(base.effectiveOutputFile == some "-") <;>
    cases hS : a.use_stdout || base.effectiveOutputFile == some "-" <;>
    simp [hN, hW, hw, hS, hH]
  · cases hW : truthy base.effectiveOutputFile && !(base.effectiveOutputFile == some "-") <;>
    cases hS : a.use_stdout || base.effectiveOutputFile == some "-" <;>
    cases hH : a.html == OptArg.notGiven <;>
    simp [hN, hW, hw, hh, hS, hH]

/-- When neither the output write nor the HTML export raises, `postRun`
leaves the outcome (the pending `exit(exit_status)`) unchanged. -/
theorem postRun_outcome (a : Args) (e : Env) (base : MainTrace)
    (hw : e.write_output_fails = false) (hh : e.html_export_fails = false)
    (hn : htmlName a = none → a.html = OptArg.notGiven) :
    (postRun a e base).outcome = base.outcome := by
  unfold postRun
  rcases hN : htmlName a with _ | hname
  · have hH : (a.html == OptArg.notGiven) = true := by simp [hn hN]
    cases hW : truthy base.effectiveOutputFile && !(base.effectiveOutputFile == some "-") <;>
    cases hS : a.use_stdout || base.effectiveOutputFile == some "-" <;>
    simp [hN, hW, hw, hS, hH]
  · cases hW : truthy base.effectiveOutputFile && !(base.effectiveOutputFile == some "-") <;>
    cases hS : a.use_stdout || base.effectiveOutputFile == some "-" <;>
    cases hH : a.html == OptArg.notGiven <;>
    simp [hN, hW, hw, hh, hS, hH]

/-- When the effective output file is a real path (truthy and not `-`)
and the write does not raise, `postRun` writes the notebook there. -/
theorem postRun_wroteNotebookTo (a : Args) (e : Env) (base : MainTrace)
    (f : String) (hof : base.effectiveOutputFile = some f)
    (hne : f ≠ "") (hnd : f ≠ "-") (hw : e.write_output_fails = false) :
    (postRun a e base).wroteNotebookTo = some f := by
  unfold postRun
  rcases hN : htmlName a with _ | hname <;>
  cases hS : a.use_stdout <;>
  cases hH : a.html == OptArg.notGiven <;>
  cases hE : e.html_export_fails <;>
  simp [hN, hof, hw, hS, hH, hE, hne, hnd, truthy]

/-- The `--overwrite`/`output_file` conflict branch of `main`. -/
theorem main_conflict (a : Args) (e : Env) (h : conflictCond a = true) :
    main a e = { outcome := .exited 1, printedUsageError := true,
                 effectiveOutputFile := a.output_file } := by
  unfold main
  rw [h]
  rfl

/-- The print-help-and-exit branch of `main` (interactive stdin, no
input file). -/
theorem main_help (a : Args) (e : Env) (h1 : conflictCond a = false)
    (h2 : helpCond a e = true) :
    main a e = { outcome := .exited 0,
                 effectiveOutputFile :=
                   if a.overwrite then a.input_file else a.output_file } := by
  unfold main
  rw [h1, h2]
  simp

/-- On the path that reaches `run_notebook`, `main` is `postRun` applied
to the trace accumulated before the output stages. -/
theorem main_run (a : Args) (e : Env) (h1 : conflictCond a = false)
    (h2 : helpCond a e = false) :
    main a e = postRun a e
      { outcome := .exited (exitStatusOf e.run_result), inputRead := true,
        readFromStdin := readStdinCond a, runInvoked := true,
        runnerWorkingDir :=
          if a.no_chdir then none
          else if readStdinCond a then none
          else some (posixDirname (a.input_file.getD "")),
        runnerProfileDir := if truthy a.profile_dir then a.profile_dir else none,
        effectiveOutputFile :=
          if a.overwrite then a.input_file else a.output_file } := by
  unfold main
  rw [h1, h2]
  simp

/-- If `main` invoked the runner, the `--overwrite` conflict branch was
not taken. -/
theorem conflictCond_false_of_run (a : Args) (e : Env)
    (hrun : (main a e).runInvoked = true) : conflictCond a = false := by
  cases hc : conflictCond a with
  | false => rfl
  | true =>
    rw [main_conflict a e hc] at hrun
    simp at hrun

/-- If `main` invoked the runner, the print-help branch was not taken. -/
theorem helpCond_false_of_run (a : Args) (e : Env)
    (hrun : (main a e).runInvoked = true) : helpCond a e = false := by
  cases hh : helpCond a e with
  | false => rfl
  | true =>
    rw [main_help a e (conflictCond_false_of_run a e hrun) hh] at hrun
    simp at hrun

/-!
## Claims about the CLI driver `main`
-/

/-- C8: if `main` is invoked with `--overwrite` and an explicit
`output_file` argument, it prints an error message to stderr and exits
with status 1 before reading any input or executing any cell. -/
theorem overwrite_conflict_exits_early (a : Args) (e : Env) (f : String)
    (hov : a.overwrite = true) (hout : a.output_file = some f) :
    (main a e).outcome = .exited 1 ∧ (main a e).printedUsageError = true ∧
    (main a e).inputRead = false ∧ (main a e).runInvoked = false := by
  have hc : conflictCond a = true := by
    unfold conflictCond
    rw [hov, hout]
    rfl
  rw [main_conflict a e hc]
  exact ⟨rfl, rfl, rfl, rfl⟩

/-- Witness for `overwrite_conflict_exits_early` at a concrete input. -/
theorem overwrite_conflict_exits_early_witness :
    (main { overwrite := true, output_file := some "out.ipynb",
            input_file := some "a.ipynb" } {}).outcome = .exited 1 ∧
    (main { overwrite := true, output_file := some "out.ipynb",
            input_file := some "a.ipynb" } {}).printedUsageError = true ∧
    (main { overwrite := true, output_file := some "out.ipynb",
            input_file := some "a.ipynb" } {}).inputRead = false ∧
    (main { overwrite := true, output_file := some "out.ipynb",
            input_file := some "a.ipynb" } {}).runInvoked = false :=
  overwrite_conflict_exits_early
    { overwrite := true, output_file := some "out.ipynb",
      input_file := some "a.ipynb" } {} "out.ipynb" rfl rfl

/-- C9: the working directory passed to `NotebookRunner` is the
directory of the named input file when one is given; it is `None`
whenever the notebook is read from stdin or `--no-chdir` is set, with
`--no-chdir` taking precedence. -/
theorem working_dir_selection (a : Args) (e : Env)
    (hrun : (main a e).runInvoked = true) :
    ((a.no_chdir = true ∨ (main a e).readFromStdin = true) →
      (main a e).runnerWorkingDir = none) ∧
    (∀ f, a.input_file = some f → a.no_chdir = false →
      (main a e).readFromStdin = false →
      (main a e).runnerWorkingDir = some (posixDirname f)) := by
  have h1 := conflictCond_false_of_run a e hrun
  have h2 := helpCond_false_of_run a e hrun
  rw [main_run a e h1 h2, postRun_readFromStdin, postRun_runnerWorkingDir]
  constructor
  · rintro (hnc | hrs)
    · simp [hnc]
    · simp only at hrs
      simp [hrs]
  · intro f hf hnc hrs
    simp only at hrs
    simp [hnc, hrs, hf]

/-- Witness for `working_dir_selection` at a concrete input. -/
theorem working_dir_selection_witness :
    (main { input_file := some "nb/a.ipynb" } {}).runnerWorkingDir =
      some (posixDirname "nb/a.ipynb") :=
  (working_dir_selection { input_file := some "nb/a.ipynb" } {} rfl).2
    "nb/a.ipynb" rfl rfl rfl

/-- C1 counterexample: a run after which writing the output notebook
raises — `run_notebook` was invoked, but `shutdown_kernel` is never
called and the exception propagates out of `main`. -/
theorem shutdown_skipped_on_write_failure :
    (main { input_file := some "nb/a.ipynb", output_file := some "out.ipynb" }
        { write_output_fails := true }).runInvoked = true ∧
    (main { input_file := some "nb/a.ipynb", output_file := some "out.ipynb" }
        { write_output_fails := true }).shutdownCalled = false ∧
    (main { input_file := some "nb/a.ipynb", output_file := some "out.ipynb" }
        { write_output_fails := true }).outcome = .raised :=
  ⟨rfl, rfl, rfl⟩

/-- C1 amended: `shutdown_kernel` is invoked after the run — on success
and on a `NotebookError` failure alike — on every path on which the
output-notebook write, the HTML filename derivation and the HTML export
do not raise; when one of them raises, the exception propagates and
`shutdown_kernel` is not invoked. -/
theorem shutdown_called_when_writes_succeed (a : Args) (e : Env)
    (hrun : (main a e).runInvoked = true)
    (hw : e.write_output_fails = false) (hh : e.html_export_fails = false)
    (hn : htmlName a = none → a.html = OptArg.notGiven) :
    (main a e).shutdownCalled = true := by
  have h1 := conflictCond_false_of_run a e hrun
  have h2 := helpCond_false_of_run a e hrun
  rw [main_run a e h1 h2]
  exact postRun_shutdownCalled a e _ hw hh hn

/-- Witness for `shutdown_called_when_writes_succeed`: the kernel is
shut down even when the run itself failed with `NotebookError`. -/
theorem shutdown_called_when_writes_succeed_witness :
    (main { input_file := some "nb/a.ipynb", output_file := some "out.ipynb" }
        { run_result := .nbError }).shutdownCalled = true :=
  shutdown_called_when_writes_succeed
    { input_file := some "nb/a.ipynb", output_file := some "out.ipynb" }
    { run_result := .nbError } rfl rfl rfl (fun _ => rfl)

/-- C2 counterexample: with `--overwrite` and an explicit `output_file`,
`main` exits with status 1 although `run_notebook` was never invoked, so
no `NotebookError` was raised. -/
theorem nonzero_exit_without_notebook_error :
    (main { input_file := some "a.ipynb", output_file := some "out.ipynb",
            overwrite := true } {}).outcome = .exited 1 ∧
    (main { input_file := some "a.ipynb", output_file := some "out.ipynb",
            overwrite := true } {}).runInvoked = false :=
  ⟨rfl, rfl⟩

/-- C2 amended: on every execution that invokes `run_notebook` and on
which the output write, HTML filename derivation and HTML export do not
raise, `main` exits with status 0 when the run succeeds and status 1
when the run raises `NotebookError`; `main` can also terminate
non-zero on paths where `run_notebook` was never invoked (argument
validation) or where a write raised. -/
theorem exit_status_reflects_run_result (a : Args) (e : Env)
    (hrun : (main a e).runInvoked = true)
    (hw : e.write_output_fails = false) (hh : e.html_export_fails = false)
    (hn : htmlName a = none → a.html = OptArg.notGiven) :
    (e.run_result = RunResult.ok → (main a e).outcome = .exited 0) ∧
    (e.run_result = RunResult.nbError → (main a e).outcome = .exited 1) := by
  have h1 := conflictCond_false_of_run a e hrun
  have h2 := helpCond_false_of_run a e hrun
  rw [main_run a e h1 h2, postRun_outcome a e _ hw hh hn]
  constructor <;> intro hr <;> simp [hr, exitStatusOf]

/-- Witness for `exit_status_reflects_run_result` at a concrete input
whose run raises `NotebookError`. -/
theorem exit_status_reflects_run_result_witness :
    (main { input_file := some "nb/a.ipynb", output_file := some "out.ipynb" }
        { run_result := .nbError }).outcome = .exited 1 :=
  (exit_status_reflects_run_result
    { input_file := some "nb/a.ipynb", output_file := some "out.ipynb" }
    { run_result := .nbError } rfl rfl rfl (fun _ => rfl)).2 rfl

/-- C10: if `main` is invoked with `--overwrite` and no `output_file`
argument, `output_file` becomes `input_file` and the executed notebook
is written back to the input file path. -/
theorem overwrite_writes_back_to_input (a : Args) (e : Env) (f : String)
    (hov : a.overwrite = true) (hout : a.output_file = none)
    (hin : a.input_file = some f) (hne : f ≠ "") (hnd : f ≠ "-")
    (hw : e.write_output_fails = false) :
    (main a e).effectiveOutputFile = a.input_file ∧
    (main a e).wroteNotebookTo = some f := by
  have h1 : conflictCond a = false := by
    unfold conflictCond
    rw [hout]
    simp
  have ht : truthy a.input_file = true := by
    rw [hin]
    simp [truthy, hne]
  have h2 : helpCond a e = false := by
    unfold helpCond
    rw [ht]
    simp
  rw [main_run a e h1 h2]
  constructor
  · rw [postRun_effectiveOutputFile]
    simp [hov]
  · exact postRun_wroteNotebookTo a e _ f (by simp [hov, hin]) hne hnd hw

/-- Witness for `overwrite_writes_back_to_input` at a concrete input. -/
theorem overwrite_writes_back_to_input_witness :
    (main { overwrite := true, input_file := some "nb/a.ipynb" } {}).wroteNotebookTo =
      some "nb/a.ipynb" :=
  (overwrite_writes_back_to_input
    { overwrite := true, input_file := some "nb/a.ipynb" } {} "nb/a.ipynb"
    rfl rfl rfl (by decide) (by decide) rfl).2


/-!
## Claims about the execution engine (modelled from the spec)
-/

theorem run_cells_noncode (oracle : Nat → CellOutcome) (skip : Bool) :
    ∀ (cs : List Cell) (idx counter subs : Nat),
      (∀ c ∈ cs, isCode c = false) →
      run_cells oracle skip cs idx counter subs = (cs, counter, subs, none) := by
  intro cs
  induction cs with
  | nil => intro idx counter subs _; rfl
  | cons c rest ih =>
    intro idx counter subs h
    cases c with
    | code src cnt outs =>
      have hc := h (.code src cnt outs) (List.mem_cons_self _ _)
      simp [isCode] at hc
    | markdown s =>
      have hr := ih (idx + 1) counter subs
        (fun c hc => h c (List.mem_cons_of_mem _ hc))
      simp [run_cells, hr]
    | raw s =>
      have hr := ih (idx + 1) counter subs
        (fun c hc => h c (List.mem_cons_of_mem _ hc))
      simp [run_cells, hr]

theorem run_cell_counter_le (skip : Bool) (src : String) (cnt : Option Nat)
    (outcome : CellOutcome) (counter : Nat) :
    counter ≤ (run_cell skip src cnt outcome counter).2.1 := by
  cases outcome with
  | completed evs term => cases term <;> simp [run_cell]
  | timedOut evs => simp [run_cell]
  | channelClosed evs => simp [run_cell]

theorem run_cells_counter_mono (oracle : Nat → CellOutcome) (skip : Bool) :
    ∀ (cs : List Cell) (idx counter subs : Nat),
      counter ≤ (run_cells oracle skip cs idx counter subs).2.1 := by
  intro cs
  induction cs with
  | nil => intro idx counter subs; simp [run_cells]
  | cons c rest ih =>
    intro idx counter subs
    cases c with
    | code src cnt outs =>
      rcases hc : run_cell skip src cnt (oracle subs) counter with
        ⟨cell', counter', abort⟩
      have h1 : counter ≤ counter' := by
        have h := run_cell_counter_le skip src cnt (oracle subs) counter
        rw [hc] at h
        exact h
      cases abort with
      | true => simpa [run_cells, hc] using h1
      | false =>
        rcases hr : run_cells oracle skip rest (idx + 1) counter' (subs + 1) with
          ⟨rest', cF, sF, res⟩
        have h2 := ih (idx + 1) counter' (subs + 1)
        rw [hr] at h2
        simpa [run_cells, hc, hr] using le_trans h1 h2
    | markdown s =>
      rcases hr : run_cells oracle skip rest (idx + 1) counter subs with
        ⟨rest', cF, sF, res⟩
      have h2 := ih (idx + 1) counter subs
      rw [hr] at h2
      simpa [run_cells, hr] using h2
    | raw s =>
      rcases hr : run_cells oracle skip rest (idx + 1) counter subs with
        ⟨rest', cF, sF, res⟩
      have h2 := ih (idx + 1) counter subs
      rw [hr] at h2
      simpa [run_cells, hr] using h2

/-- C6: running a notebook containing only Markdown/Raw cells submits no
kernel requests and leaves the document unchanged. -/
theorem noncode_notebook_noop (oracle : Nat → CellOutcome) (skip : Bool)
    (nb : Notebook) (h : ∀ c ∈ nb.cells, isCode c = false) :
    run_notebook oracle skip nb = (nb, 0, none) := by
  unfold run_notebook
  rw [run_cells_noncode oracle skip nb.cells 0 0 0 h]

/-- Witness for `noncode_notebook_noop` on a concrete two-cell notebook. -/
theorem noncode_notebook_noop_witness :
    run_notebook (fun _ => CellOutcome.completed [] (Terminal.ok none)) true
        ⟨[Cell.markdown "# Title", Cell.raw "raw text"]⟩ =
      (⟨[Cell.markdown "# Title", Cell.raw "raw text"]⟩, 0, none) :=
  noncode_notebook_noop (fun _ => CellOutcome.completed [] (Terminal.ok none))
    true ⟨[Cell.markdown "# Title", Cell.raw "raw text"]⟩ (by decide)

/-- C3: when the kernel reports a cell's execution as an error, the
error is recorded as an `Error` output of that cell; with
`skipExceptions = true` the run proceeds to the next cell; with
`skipExceptions = false` the run aborts with `NotebookError` carrying
that cell's index, every subsequent cell is left unexecuted (returned
unchanged), and the outputs recorded up to and including the failing
cell remain in the document. -/
theorem error_cell_policy (oracle : Nat → CellOutcome) (skip : Bool)
    (src : String) (cnt : Option Nat) (outs : List Output) (rest : List Cell)
    (idx counter subs : Nat) (evs : List Event) (en ev : String)
    (tb : List String)
    (hk : oracle subs = CellOutcome.completed evs (Terminal.error en ev tb)) :
    Output.error en ev tb ∈
      (if Output.error en ev tb ∈ evs.filterMap normalize
       then evs.filterMap normalize
       else evs.filterMap normalize ++ [Output.error en ev tb]) ∧
    (skip = true →
      run_cells oracle skip (Cell.code src cnt outs :: rest) idx counter subs =
        (Cell.code src (some (counter + 1))
            (if Output.error en ev tb ∈ evs.filterMap normalize
             then evs.filterMap normalize
             else evs.filterMap normalize ++ [Output.error en ev tb]) ::
          (run_cells oracle skip rest (idx + 1) (counter + 1) (subs + 1)).1,
         (run_cells oracle skip rest (idx + 1) (counter + 1) (subs + 1)).2)) ∧
    (skip = false →
      run_cells oracle skip (Cell.code src cnt outs :: rest) idx counter subs =
        (Cell.code src (some (counter + 1))
            (if Output.error en ev tb ∈ evs.filterMap normalize
             then evs.filterMap normalize
             else evs.filterMap normalize ++ [Output.error en ev tb]) :: rest,
         counter + 1, subs + 1, some idx)) := by
  refine ⟨?_, ?_, ?_⟩
  · by_cases hmem : Output.error en ev tb ∈ evs.filterMap normalize
    · simp [hmem]
    · simp [hmem]
  · intro hskip
    subst hskip
    rcases hr : run_cells oracle true rest (idx + 1) (counter + 1) (subs + 1) with
      ⟨rest', cF, sF, res⟩
    simp [run_cells, run_cell, hk, hr]
  · intro hskip
    subst hskip
    simp [run_cells, run_cell, hk]

/-- Witness for `error_cell_policy`: the spec's concrete scenario cell
`1/0` with `skipExceptions = false` aborts at index 0 and leaves the
following cell unexecuted. -/
theorem error_cell_policy_witness :
    run_cells
        (fun _ => CellOutcome.completed []
          (Terminal.error "ZeroDivisionError" "division by zero" [])) false
        [Cell.code "1/0" none [], Cell.code "print('after')" none []] 0 0 0 =
      ([Cell.code "1/0" (some 1)
          [Output.error "ZeroDivisionError" "division by zero" []],
        Cell.code "print('after')" none []], 1, 1, some 0) := by
  have h := error_cell_policy
    (fun _ => CellOutcome.completed []
      (Terminal.error "ZeroDivisionError" "division by zero" []))
    false "1/0" none [] [Cell.code "print('after')" none []] 0 0 0 []
    "ZeroDivisionError" "division by zero" [] rfl
  simpa using h.2.2 rfl

/-- C4: the execution counter is incremented exactly once for every
executed Code cell — whenever a terminal reply arrives, whether `ok`,
`error` or `aborted` — and across a whole run the counter is
monotonically non-decreasing. -/
theorem execution_counter_per_cell :
    (∀ (skip : Bool) (src : String) (cnt : Option Nat) (evs : List Event)
        (term : Terminal) (counter : Nat),
      (run_cell skip src cnt (CellOutcome.completed evs term) counter).2.1 =
        counter + 1) ∧
    (∀ (oracle : Nat → CellOutcome) (skip : Bool) (cs : List Cell)
        (idx counter subs : Nat),
      counter ≤ (run_cells oracle skip cs idx counter subs).2.1) := by
  constructor
  · intro skip src cnt evs term counter
    cases term <;> rfl
  · intro oracle skip cs idx counter subs
    exact run_cells_counter_mono oracle skip cs idx counter subs

/-- C5: re-executing a Code cell is independent of the cell's previous
outputs (they are cleared before any new output is appended), and the
new execution count is assigned exactly when a terminal reply arrives:
after a terminal reply the count is `counter + 1`, while after a
timeout or channel closure the prior count is left in place. -/
theorem outputs_cleared_on_rerun :
    (∀ (oracle : Nat → CellOutcome) (skip : Bool) (src : String)
        (cnt : Option Nat) (outs1 outs2 : List Output) (rest : List Cell)
        (idx counter subs : Nat),
      run_cells oracle skip (Cell.code src cnt outs1 :: rest) idx counter subs =
        run_cells oracle skip (Cell.code src cnt outs2 :: rest) idx counter subs) ∧
    (∀ (skip : Bool) (src : String) (cnt : Option Nat) (evs : List Event)
        (term : Terminal) (counter : Nat),
      cellCount (run_cell skip src cnt (CellOutcome.completed evs term) counter).1 =
        some (counter + 1)) ∧
    (∀ (skip : Bool) (src : String) (cnt : Option Nat) (evs : List Event)
        (counter : Nat),
      cellCount (run_cell skip src cnt (CellOutcome.timedOut evs) counter).1 = cnt ∧
      cellCount (run_cell skip src cnt (CellOutcome.channelClosed evs) counter).1 = cnt) := by
  refine ⟨?_, ?_, ?_⟩
  · intro oracle skip src cnt outs1 outs2 rest idx counter subs
    rfl
  · intro skip src cnt evs term counter
    cases term <;> rfl
  · intro skip src cnt evs counter
    exact ⟨rfl, rfl⟩

/-- C7: `shutdown_kernel` is idempotent — a second call is a no-op, and
calling it on an already-terminated or never-started session returns
the session unchanged (it is a total function, so it never raises). -/
theorem shutdown_kernel_idempotent :
    (∀ s : KernelSession, shutdown_kernel (shutdown_kernel s) = shutdown_kernel s) ∧
    shutdown_kernel ⟨KernelState.dead⟩ = ⟨KernelState.dead⟩ ∧
    shutdown_kernel ⟨KernelState.notStarted⟩ = ⟨KernelState.notStarted⟩ := by
  refine ⟨?_, rfl, rfl⟩
  intro s
  rcases s with ⟨st⟩
  cases st <;> rfl

end Runipy
